import Mathlib

/-!
Verification of the content-strategy / content-generation core of the
rental-village-social-bot repository.

The development shallowly embeds the Python modules
`src/utils/content_strategy_engine.py`, `src/utils/enhanced_image_generation.py`,
`src/utils/config_loader.py` and `src/suggest_content.py`:

* Python floats become `ℚ` (all arithmetic appearing in the code is exact on
  the inputs considered);
* Python dicts whose keys are looked up with `.get` become association lists
  (`List (String × _)`) or option-valued records of the keys the code reads;
* calls to external services (the Sanity CMS, the Gemini model, the HTTP image
  download) become explicit oracle arguments describing the observed outcome;
* a raised exception that escapes a function becomes `none` / `Except.error`;
* `random.choice`/`random.choices` draws become an index oracle: the draw picks
  `l[r % len l]`, which ranges over exactly the elements a weighted draw can
  return (the weights only bias which index the interpreter picks).
-/

namespace RentalVillage

/-! ### Python string / list / dict semantics helpers -/

/-- Python `s.lower()` (ASCII, which is all the code ever feeds it). -/
def pyLower (s : String) : String := ⟨s.data.map Char.toLower⟩

/-- Auxiliary for `pyTitle`: the Boolean records whether the previous
character was alphabetic. -/
def pyTitleAux : Bool → List Char → List Char
  | _, [] => []
  | prevAlpha, c :: cs =>
    (if c.isAlpha then (if prevAlpha then c.toLower else c.toUpper) else c)
      :: pyTitleAux c.isAlpha cs

/-- Python `s.title()`: the first letter of every run of letters is
upper-cased, the rest lower-cased. -/
def pyTitle (s : String) : String := ⟨pyTitleAux false s.data⟩

/-- Does `l` start with `sub`? -/
def startsWithList : List Char → List Char → Bool
  | [], _ => true
  | _ :: _, [] => false
  | c :: cs, d :: ds => c = d && startsWithList cs ds

/-- Does `sub` occur contiguously inside `l`? -/
def hasSubList (l sub : List Char) : Bool :=
  match l with
  | [] => sub.isEmpty
  | _ :: t => startsWithList sub l || hasSubList t sub

/-- Python `sub in s` for strings (substring containment). -/
def pyContains (s sub : String) : Bool := hasSubList s.data sub.data

/-- Python `l[:n]` for an arbitrary (possibly negative) integer bound. -/
def pySlice {α : Type} (l : List α) (n : ℤ) : List α :=
  if 0 ≤ n then l.take n.toNat else l.take (l.length - (-n).toNat)

/-- Python `d.get(k, default)` on a dict modelled as an association list. -/
def dictGetD {α : Type} (l : List (String × α)) (k : String) (d : α) : α :=
  (l.lookup k).getD d

/-- Python `random.choice(l)` / `random.choices(l, weights)[0]` on a list
known to be nonempty: the oracle `r` selects the index. -/
def pickSure {α : Type} (l : List α) (r : ℕ) (h : l ≠ []) : α :=
  l.get ⟨r % l.length, Nat.mod_lt r (List.length_pos.mpr h)⟩

/-- Truthiness of a `str | None` Python value (`None` and `""` are falsy). -/
def pyTruthyStr : Option String → Bool
  | none => false
  | some s => !(s == "")

/-! ### Configuration (`config_loader.py`)

Only the configuration fields the verified functions read are modelled; each
field keeps the shape the loader produces (`config_data.get(..., {})`), so a
missing key is representable (`[]` / `none`). -/

/-- `ContentStrategyConfig` restricted to the keys the engine reads.
`equipment_selection_rules` is a dict read with `.get(key, default)`; the
three Boolean rules default to `False` and `maxEquipmentPerPost` to `3`. -/
structure ContentStrategyConfig where
  pillar_weights : List (String × ℚ) := []
  platform_preferences : List (String × ℚ) := []
  prioritizeHighMargin : Bool := false
  prioritizeNewEquipment : Bool := false
  prioritizeUnderutilized : Bool := false
  maxEquipmentPerPost : Option ℤ := none

/-- `SeasonalConfig` restricted to the keys the engine reads. -/
structure SeasonalConfig where
  current_season : String := "winter"
  seasonal_equipment_priority : List (String × List String) := []
  seasonal_content_themes : List (String × List String) := []
  seasonal_boosts : List (String × ℚ) := []

/-- `seasonal_boosts.get('currentSeasonBoost', 1.0)`. -/
def currentSeasonBoost (sc : SeasonalConfig) : ℚ :=
  dictGetD sc.seasonal_boosts "currentSeasonBoost" 1

/-- `generation_rules` of `ImageGenerationConfig`, restricted to the key
`enhance_equipment_images` reads (`maxImagesPerPost`, default `3`). -/
structure ImageGenerationConfig where
  maxImagesPerPost : Option ℤ := none

/-- One platform's settings dict (`facebook` / `instagram` / `blog`),
restricted to the keys the verified functions read.  `contentLengthMax`
is `platform_config.get('contentLength', {}).get('max', ...)`; `imageSpecs`
is `none` when the key is missing or its dict is empty (both are falsy). -/
structure PlatformEntryData where
  contentLengthMax : Option ℤ := none
  imageSpecs : Option (Option ℤ × Option ℤ) := none
  deriving DecidableEq

/-- `PlatformConfig`: a `none` entry models an empty (falsy) settings dict. -/
structure PlatformConfig where
  facebook : Option PlatformEntryData := none
  instagram : Option PlatformEntryData := none
  blog : Option PlatformEntryData := none

/-- `getattr(platform_config, platform.lower(), {})`, with `none` for the
empty-dict default an unknown platform name produces. -/
def getPlatformEntry (pc : PlatformConfig) (platform : String) : Option PlatformEntryData :=
  let l := pyLower platform
  if l = "facebook" then pc.facebook
  else if l = "instagram" then pc.instagram
  else if l = "blog" then pc.blog
  else none

/-! ### Data model (`content_strategy_engine.py`) -/

/-- The `ContentPlan` dataclass. -/
structure ContentPlan where
  pillar : String
  target_platform : String
  equipment_category : String
  seasonal_context : String
  priority_score : ℚ
  business_rationale : String

/-- The `EquipmentTarget` dataclass. -/
structure EquipmentTarget where
  category : String
  specific_equipment_ids : List String
  availability_filter : String
  priority_reasons : List String

/-- An equipment record as the engine reads it back from a catalog query
(`_id`, `name`, `short_description`, `popularity_score`; a `none` field is a
missing / `null` key). -/
structure Equipment where
  id : String := ""
  name : Option String := none
  short_description : Option String := none
  popularity_score : Option ℚ := none

/-! ### `ContentStrategyEngine._select_strategic_pillar` -/

/-- The deterministic part of `_select_strategic_pillar`: the pillar list and
the final (renormalised, seasonally boosted) probability list fed to
`random.choices`.  `none` models the two possible `ZeroDivisionError`s
(`1.0 / len(pillars)` with no configured pillar, and the renormalisation by a
zero post-boost total). -/
def selectStrategicPillarDist (cs : ContentStrategyConfig) (sc : SeasonalConfig) :
    Option (List String × List ℚ) :=
  let pillars := cs.pillar_weights.map Prod.fst
  let probabilities := cs.pillar_weights.map Prod.snd
  let total := probabilities.sum
  let step1 : Option (List ℚ) :=
    if 0 < total then some (probabilities.map (fun p => p / total))
    else if pillars.length = 0 then none
    else some (List.replicate pillars.length ((1 : ℚ) / pillars.length))
  match step1 with
  | none => none
  | some probs1 =>
    let boost := currentSeasonBoost sc
    let probs2 := (pillars.zip probs1).map
      (fun pq => if pq.1 = "seasonal_content" then pq.2 * boost else pq.2)
    let total2 := probs2.sum
    if total2 = 0 then none
    else some (pillars, probs2.map (fun p => p / total2))

/-- `_select_strategic_pillar`, with the weighted draw abstracted by the
index oracle `r`. -/
def selectStrategicPillar (cs : ContentStrategyConfig) (sc : SeasonalConfig) (r : ℕ) :
    Option String :=
  match selectStrategicPillarDist cs sc with
  | none => none
  | some pd => pd.1[r % pd.1.length]?

/-! ### `ContentStrategyEngine._select_optimal_platform` -/

/-- `_select_optimal_platform`; total, because every `random.choices` call in
it draws from a provably nonempty list. -/
def selectOptimalPlatform (cs : ContentStrategyConfig) (pillar : String) (r : ℕ) : String :=
  if pillar = "equipment_spotlight" then pickSure ["Instagram", "Facebook"] r (by simp)
  else if pillar = "project_showcase" then pickSure ["Instagram", "Facebook"] r (by simp)
  else if pillar = "educational_content" then pickSure ["Blog", "Facebook"] r (by simp)
  else if pillar = "safety_training" then pickSure ["Blog", "Facebook"] r (by simp)
  else
    if h : 0 < (cs.platform_preferences.map Prod.snd).sum then
      pickSure (cs.platform_preferences.map Prod.fst) r (by
        intro hnil
        rw [List.map_eq_nil_iff] at hnil
        rw [hnil] at h
        simp at h)
    else "Facebook"

/-! ### `ContentStrategyEngine._select_equipment_category` -/

/-- The hard-coded `self.pillar_categories` dict. -/
def pillarCategoriesDict : List (String × List String) :=
  [("equipment_spotlight",
      ["Earth Moving Equipment", "Concrete Equipment", "Lift-Scaffold-Fence",
       "Compaction Equipment"]),
   ("project_showcase",
      ["Earth Moving Equipment", "Concrete Equipment", "Drills & Breakers", "Saws"]),
   ("industry_focus",
      ["Earth Moving Equipment", "Lawn & Garden", "Concrete Equipment",
       "Moving Equipment"]),
   ("seasonal_content",
      ["Lawn Care", "Heating", "Generators & Cords", "Pumps: Gas & Electric"]),
   ("safety_training",
      ["Drills & Breakers", "Lift-Scaffold-Fence", "Saws", "Earth Moving Equipment"]),
   ("educational_content",
      ["Hand Tools", "Measuring Equipment", "Floor Equipment", "Fastening Tools"]),
   ("customer_success",
      ["Earth Moving Equipment", "Concrete Equipment", "Lifts"]),
   ("maintenance_tips",
      ["Generators & Cords", "Pumps: Gas & Electric", "Air Compressors & Tools"])]

/-- `self.pillar_categories.get(pillar, ['Earth Moving Equipment'])`. -/
def pillarCategoriesD (pillar : String) : List String :=
  dictGetD pillarCategoriesDict pillar ["Earth Moving Equipment"]

/-- `self.pillar_categories.get(pillar, [])` (used inside the seasonal filter). -/
def pillarCategories0 (pillar : String) : List String :=
  dictGetD pillarCategoriesDict pillar []

/-- The hard-coded seasonal-priority → Sanity-category `category_mapping`
dict, applied with default `'Lawn & Garden'`. -/
def categoryMapping (p : String) : String :=
  dictGetD
    [("landscaping", "Lawn & Garden"),
     ("construction", "Earth Moving Equipment"),
     ("snow-removal", "Moving Equipment"),
     ("agriculture", "Tillers"),
     ("material-handling", "Moving Equipment"),
     ("leaf-blowers", "Blower/Sprayer"),
     ("chippers", "Wood Chipper"),
     ("excavation", "Earth Moving Equipment"),
     ("cleanup", "Moving Equipment"),
     ("heaters", "Heating"),
     ("indoor-tools", "Hand Tools"),
     ("pumps", "Pumps: Gas & Electric"),
     ("generators", "Generators & Cords")]
    p "Lawn & Garden"

/-- A successful association-list lookup returns one of the stored values. -/
theorem lookup_mem_snd {α : Type} {l : List (String × α)} {k : String} {v : α}
    (h : l.lookup k = some v) : v ∈ l.map Prod.snd := by
  induction l with
  | nil => simp [List.lookup] at h
  | cons p t ih =>
    simp only [List.lookup] at h
    cases hk : (k == p.1) with
    | false =>
      rw [hk] at h
      exact List.mem_cons_of_mem _ (ih h)
    | true =>
      rw [hk] at h
      simp only [Option.some.injEq] at h
      simp [← h]

/-- Every value of `pillarCategoriesDict`, and the default, is nonempty. -/
theorem pillarCategoriesD_ne_nil (pillar : String) : pillarCategoriesD pillar ≠ [] := by
  unfold pillarCategoriesD dictGetD
  rcases h : pillarCategoriesDict.lookup pillar with _ | v
  · simp
  · have hv : v ∈ pillarCategoriesDict.map Prod.snd := lookup_mem_snd h
    have hall : ∀ w ∈ pillarCategoriesDict.map Prod.snd, w ≠ [] := by decide
    simpa using hall v hv

/-- `_select_equipment_category`; total, because every `random.choice` call
draws from a nonempty list. -/
def selectEquipmentCategory (cs : ContentStrategyConfig) (sc : SeasonalConfig)
    (pillar : String) (r : ℕ) : String :=
  let available := pillarCategoriesD pillar
  let fromRules : String :=
    if cs.prioritizeHighMargin then
      let hm := (["Compaction", "Concrete", "Demolition"].filter
        (fun c => available.contains c))
      if h : hm ≠ [] then pickSure hm r h
      else pickSure available r (pillarCategoriesD_ne_nil pillar)
    else pickSure available r (pillarCategoriesD_ne_nil pillar)
  if pillar = "seasonal_content" then
    let priorities := dictGetD sc.seasonal_equipment_priority sc.current_season []
    if hp : priorities ≠ [] then
      let seasonalCats := priorities.map categoryMapping
      let availSeasonal := seasonalCats.filter (fun c => (pillarCategories0 pillar).contains c)
      if h2 : availSeasonal ≠ [] then pickSure availSeasonal r h2
      else pickSure seasonalCats r (fun hmap => hp (List.map_eq_nil_iff.mp hmap))
    else fromRules
  else fromRules

/-! ### `ContentStrategyEngine._get_seasonal_context` -/

/-- `_get_seasonal_context`. -/
def getSeasonalContext (sc : SeasonalConfig) (pillar : String) (r : ℕ) : String :=
  let themes := dictGetD sc.seasonal_content_themes sc.current_season []
  if h : pillar = "seasonal_content" ∧ themes ≠ [] then
    pickSure themes r h.2
  else
    pyTitle sc.current_season ++ " Context"

/-! ### `ContentStrategyEngine._calculate_priority_score` -/

/-- `_calculate_priority_score`.  `equipmentCount` is the value
`_get_available_equipment_count` returned for the chosen category (that
helper returns `0` on any query error, so it always yields a natural
number). -/
def calculatePriorityScore (cs : ContentStrategyConfig) (sc : SeasonalConfig)
    (pillar _equipmentCategory seasonalContext : String) (equipmentCount : ℕ) : ℚ :=
  let baseScore : ℚ := 50
  let pillarWeight := dictGetD cs.pillar_weights pillar (1 / 10)
  let score := baseScore + pillarWeight * 40
  let score :=
    if pyContains (pyLower pillar) "seasonal"
        || pyContains (pyLower seasonalContext) (pyLower sc.current_season) then
      score * currentSeasonBoost sc
    else score
  let score :=
    if 0 < equipmentCount then score + min ((equipmentCount : ℚ) * 2) 10 else score
  let score := if cs.prioritizeNewEquipment then score + 5 else score
  min score 100

/-! ### `ContentStrategyEngine._generate_business_rationale` -/

/-- The hard-coded `pillar_rationales` dict with its lookup default. -/
def pillarRationale (pillar : String) : String :=
  dictGetD
    [("equipment_spotlight", "Showcase specific equipment to drive rental interest"),
     ("project_showcase", "Demonstrate equipment in action to build customer confidence"),
     ("seasonal_content", "Capitalize on seasonal rental demand"),
     ("safety_training", "Build trust through safety education and compliance"),
     ("educational_content", "Establish expertise and support customer decision-making"),
     ("industry_focus", "Target specific industry segments for growth"),
     ("customer_success", "Leverage social proof to attract new customers"),
     ("maintenance_tips", "Add value and extend customer relationships")]
    pillar "Strategic content generation"

/-- `_generate_business_rationale`. -/
def generateBusinessRationale (sc : SeasonalConfig)
    (pillar equipmentCategory seasonalContext : String) : String :=
  let rationales := [pillarRationale pillar]
  let rationales :=
    if equipmentCategory ≠ "" then
      rationales ++ ["Focus on " ++ equipmentCategory ++ " equipment for targeted impact"]
    else rationales
  let rationales :=
    if pyContains (pyLower seasonalContext) (pyLower sc.current_season) then
      rationales ++ ["Leverage " ++ sc.current_season ++ " demand patterns"]
    else rationales
  String.intercalate "; " rationales

/-! ### `ContentStrategyEngine.plan_strategic_content` -/

/-- The random draws and external-query observations one loop iteration of
`plan_strategic_content` consumes. -/
structure RandIdea where
  pillarR : ℕ := 0
  platformR : ℕ := 0
  categoryR : ℕ := 0
  contextR : ℕ := 0
  equipCount : ℕ := 0

/-- One iteration of the `plan_strategic_content` loop (steps 1–6). -/
def planOne (cs : ContentStrategyConfig) (sc : SeasonalConfig) (rd : RandIdea) :
    Option ContentPlan :=
  (selectStrategicPillar cs sc rd.pillarR).bind fun pillar =>
    let platform := selectOptimalPlatform cs pillar rd.platformR
    let category := selectEquipmentCategory cs sc pillar rd.categoryR
    let context := getSeasonalContext sc pillar rd.contextR
    let score := calculatePriorityScore cs sc pillar category context rd.equipCount
    let rationale := generateBusinessRationale sc pillar category context
    some { pillar := pillar, target_platform := platform, equipment_category := category,
           seasonal_context := context, priority_score := score,
           business_rationale := rationale }

/-- The descending-priority comparison `plans.sort(key=..., reverse=True)`
sorts by. -/
def planGE (a b : ContentPlan) : Prop := b.priority_score ≤ a.priority_score

instance : DecidableRel planGE :=
  fun a b => inferInstanceAs (Decidable (b.priority_score ≤ a.priority_score))

instance : IsTotal ContentPlan planGE :=
  ⟨fun a b => le_total b.priority_score a.priority_score⟩

instance : IsTrans ContentPlan planGE :=
  ⟨fun _ _ _ h1 h2 => le_trans h2 h1⟩

/-- The `for i in range(num_ideas)` loop of `plan_strategic_content`:
append one plan per iteration; an exception in any iteration (`none` from
`planOne`) escapes the loop. -/
def collectPlans (cs : ContentStrategyConfig) (sc : SeasonalConfig)
    (rand : ℕ → RandIdea) : ℕ → Option (List ContentPlan)
  | 0 => some []
  | n + 1 =>
    match collectPlans cs sc rand n, planOne cs sc (rand n) with
    | some acc, some p => some (acc ++ [p])
    | _, _ => none

/-- `plan_strategic_content(num_ideas)`: run the per-idea loop, then sort by
descending priority score.  `none` models an uncaught exception escaping the
loop. -/
def planStrategicContent (cs : ContentStrategyConfig) (sc : SeasonalConfig)
    (rand : ℕ → RandIdea) (numIdeas : ℕ) : Option (List ContentPlan) :=
  (collectPlans cs sc rand numIdeas).map
    (fun plans => List.insertionSort planGE plans)

/-! ### `ContentStrategyEngine.get_equipment_targets` -/

/-- `x.get('popularity_score') or 0` (a missing key — and `0` itself — give `0`). -/
def popKey (e : Equipment) : ℚ := e.popularity_score.getD 0

instance : DecidableRel (fun a b : Equipment => popKey a ≤ popKey b) :=
  fun a b => inferInstanceAs (Decidable (popKey a ≤ popKey b))

instance : DecidableRel (fun a b : Equipment => popKey b ≤ popKey a) :=
  fun a b => inferInstanceAs (Decidable (popKey b ≤ popKey a))

/-- `equipment_rules.get('maxEquipmentPerPost', 3)`. -/
def maxEquipmentOf (cs : ContentStrategyConfig) : ℤ :=
  cs.maxEquipmentPerPost.getD 3

/-- `get_equipment_targets(plan)`.  `queryResult` is the outcome of the
catalog query (`Except.error` models a raised exception, which the
function's `try`/`except` converts into the default target). -/
def getEquipmentTargets (cs : ContentStrategyConfig) (plan : ContentPlan)
    (queryResult : Except Unit (List Equipment)) : EquipmentTarget :=
  match queryResult with
  | Except.error _ =>
    { category := plan.equipment_category
      specific_equipment_ids := []
      availability_filter := "availability.status == \"available\""
      priority_reasons := ["Default equipment selection"] }
  | Except.ok equipmentList =>
    let sorted :=
      if cs.prioritizeUnderutilized then
        List.insertionSort (fun a b => popKey a ≤ popKey b) equipmentList
      else
        List.insertionSort (fun a b => popKey b ≤ popKey a) equipmentList
    let selected := pySlice sorted (maxEquipmentOf cs)
    let equipmentIds := selected.map (fun e => e.id)
    let priorityReasons :=
      (if cs.prioritizeNewEquipment then ["Recently added equipment"] else []) ++
      (if cs.prioritizeUnderutilized then
        ["Underutilized equipment needing promotion"] else []) ++
      (if plan.seasonal_context ≠ "" then
        ["Seasonal relevance for " ++ plan.seasonal_context] else [])
    { category := plan.equipment_category
      specific_equipment_ids := equipmentIds
      availability_filter := "availability.status == \"available\""
      priority_reasons := priorityReasons }

/-! ### `EnhancedImageGenerator.enhance_equipment_images` -/

/-- An enhanced-image entry (the dict either `_enhance_image_with_gemini` or
`_create_fallback_image_entry` builds; the binary payload is not modelled). -/
structure ImageEntry where
  type : String
  equipment_name : String
  equipment_id : Option String
  enhancement_description : String
  alt_text : String
  caption : String
  url : Option String := none
  deriving DecidableEq

/-- The caption both entry constructors share:
`f"{name or 'dflt'} - {short_description or 'Professional rental equipment'}"`. -/
def entryCaption (e : Equipment) (nameDefault : String) : String :=
  e.name.getD nameDefault ++ " - " ++
    e.short_description.getD "Professional rental equipment"

/-- The dict `_enhance_image_with_gemini` returns on success
(`description` is the model's accompanying text). -/
def enhancedEntry (e : Equipment) (description : String) : ImageEntry :=
  { type := "enhanced"
    equipment_name := e.name.getD "Unknown"
    equipment_id := e.id
    enhancement_description := description
    alt_text := "Enhanced image of " ++ e.name.getD "equipment"
    caption := entryCaption e "Equipment" }

/-- `_create_fallback_image_entry(equipment, original_url)`. -/
def fallbackEntry (e : Equipment) (originalUrl : Option String) : ImageEntry :=
  { type := "original"
    equipment_name := e.name.getD "Unknown"
    equipment_id := e.id
    enhancement_description := "Using original equipment photo"
    alt_text := "Image of " ++ e.name.getD "equipment"
    caption := entryCaption e "Equipment"
    url := originalUrl }

/-- The observable outcome of one iteration of the `enhance_equipment_images`
loop, as decided by the external world (image URL present?, download
succeeded?, Gemini call result / exception): the iteration either appends no
entry (`skip`), appends the Gemini-enhanced entry, or appends the
original-photo fallback entry. -/
inductive ItemOutcome where
  | skip
  | enhanced (description : String)
  | fallback (url : Option String)
  deriving DecidableEq

/-- The entry (if any) one loop iteration appends for `e`. -/
def processItem (o : ItemOutcome) (e : Equipment) : Option ImageEntry :=
  match o with
  | ItemOutcome.skip => none
  | ItemOutcome.enhanced d => some (enhancedEntry e d)
  | ItemOutcome.fallback u => some (fallbackEntry e u)

/-- `generation_rules.get('maxImagesPerPost', 3)`. -/
def maxImagesOf (ic : ImageGenerationConfig) : ℤ :=
  ic.maxImagesPerPost.getD 3

/-- `enhance_equipment_images(equipment_data, ...)`: iterate over
`equipment_data[:max_images]`, appending at most one entry per item; the
per-item external interactions are the oracle `outcome`. -/
def enhanceEquipmentImages (ic : ImageGenerationConfig) (outcome : ℕ → ItemOutcome)
    (equipmentData : List Equipment) : List ImageEntry :=
  (pySlice equipmentData (maxImagesOf ic)).enum.filterMap
    (fun ie => processItem (outcome ie.1) ie.2)

/-! ### `EnhancedImageGenerator.optimize_for_platform`

The image dicts this function transforms carry arbitrary keys, so they are
modelled as ordered association lists with Python dict-assignment
semantics. -/

/-- A JSON-ish value stored in an image dict (binary payloads and nested
structure beyond the `target_dimensions` pair are irrelevant here). -/
inductive JVal where
  | str (s : String)
  | int (n : ℤ)
  | rat (q : ℚ)
  | dims (width height : ℤ)
  deriving DecidableEq

/-- An image entry as a Python dict (insertion-ordered key/value pairs). -/
abbrev ImgDict : Type := List (String × JVal)

/-- Python `d[k]` (`d.get(k)`) on an image dict. -/
def dictGet (d : ImgDict) (k : String) : Option JVal :=
  match d with
  | [] => none
  | p :: t => if p.1 = k then some p.2 else dictGet t k

/-- Python `d[k] = v`: overwrite in place if the key exists, else append. -/
def dictSet (d : ImgDict) (k : String) (v : JVal) : ImgDict :=
  if (dictGet d k).isSome then
    d.map (fun kv => if kv.1 = k then (k, v) else kv)
  else d ++ [(k, v)]

/-- `_get_platform_image_specs(platform)` combined with the falsy-check in
`optimize_for_platform`: `none` when the platform has no settings dict, or
no (or an empty) `imageSpecs` dict. -/
def getPlatformImageSpecs (pc : PlatformConfig) (platform : String) :
    Option (Option ℤ × Option ℤ) :=
  match getPlatformEntry pc platform with
  | none => none
  | some e => e.imageSpecs

/-- The per-image tagging step of `optimize_for_platform`:
`image.copy()` plus the two dict assignments. -/
def tagForPlatform (platform : String) (specs : Option ℤ × Option ℤ)
    (img : ImgDict) : ImgDict :=
  dictSet (dictSet img "platform_optimized" (JVal.str platform))
    "target_dimensions" (JVal.dims (specs.1.getD 1080) (specs.2.getD 1080))

/-- `optimize_for_platform(images, platform)` of
`enhanced_image_generation.py`. -/
def optimizeImagesForPlatform (pc : PlatformConfig) (images : List ImgDict)
    (platform : String) : List ImgDict :=
  match getPlatformImageSpecs pc platform with
  | none => images
  | some specs => images.map (tagForPlatform platform specs)

/-! ### `ContentGenerator._generate_content_text` (retry loop) -/

/-- What one invocation of the text-generation call (prompt building, the
three Sanity context queries, `generate_ideas_with_gemini`) produced:
a nonempty ideas list whose first element is `content`, an empty/falsy ideas
list, or a raised exception carrying message `msg`. -/
inductive GenResult where
  | ideas (content : ImgDict)
  | empty
  | err (msg : String)

/-- The overload test of the `except` branch:
`"503" in error_msg or "overloaded" in error_msg.lower()`. -/
def isOverloadError (msg : String) : Bool :=
  pyContains msg "503" || pyContains (pyLower msg) "overloaded"

/-- The strategic metadata `_generate_content_text` adds to a generated idea
before returning it. -/
def addStrategicMetadata (plan : ContentPlan) (c : ImgDict) : ImgDict :=
  dictSet (dictSet (dictSet (dictSet (dictSet (dictSet c
    "pillar" (JVal.str plan.pillar))
    "content_pillar" (JVal.str plan.pillar))
    "target_platform" (JVal.str plan.target_platform))
    "equipment_category" (JVal.str plan.equipment_category))
    "priority_score" (JVal.rat plan.priority_score))
    "generation_method" (JVal.str "strategic_planning")

/-- The observable outcome of `_generate_content_text`: the returned value,
the number of generation attempts actually made, and the `time.sleep`
durations (in seconds) in order. -/
structure GenOutcome where
  result : Option ImgDict
  calls : ℕ
  sleeps : List ℕ
  deriving DecidableEq

/-- The `for attempt in range(max_retries)` loop of `_generate_content_text`:
`attempts` is the list of remaining attempt indices, `delay` the current
`retry_delay`.  An overload error on a non-final attempt sleeps and doubles
the delay; any other error breaks out of the loop; falling out of the loop
returns `None`. -/
def genAttempts (oracle : ℕ → GenResult) (plan : ContentPlan) :
    List ℕ → ℕ → ℕ → List ℕ → GenOutcome
  | [], _, calls, sleeps => { result := none, calls := calls, sleeps := sleeps }
  | attempt :: rest, delay, calls, sleeps =>
    match oracle attempt with
    | GenResult.ideas c =>
      { result := some (addStrategicMetadata plan c), calls := calls + 1, sleeps := sleeps }
    | GenResult.empty => genAttempts oracle plan rest delay (calls + 1) sleeps
    | GenResult.err msg =>
      if isOverloadError msg then
        if attempt < 2 then
          genAttempts oracle plan rest (delay * 2) (calls + 1) (sleeps ++ [delay])
        else { result := none, calls := calls + 1, sleeps := sleeps }
      else { result := none, calls := calls + 1, sleeps := sleeps }

/-- `_generate_content_text(plan, ...)` with `max_retries = 3` and
`retry_delay = 2`. -/
def generateContentText (oracle : ℕ → GenResult) (plan : ContentPlan) : GenOutcome :=
  genAttempts oracle plan [0, 1, 2] 2 0 []

/-! ### `ContentGenerator._optimize_for_platform` (body truncation) -/

/-- The body-truncation step of `_optimize_for_platform`, on the generated
body text (as a character list): with a truthy platform settings dict, a body
longer than `contentLength.get('max', 2000)` is replaced by
`body[:max_length-3] + "..."`. -/
def optimizeBodyForPlatform (pc : PlatformConfig) (platform : String)
    (body : List Char) : List Char :=
  match getPlatformEntry pc platform with
  | none => body
  | some e =>
    let maxLength : ℤ := e.contentLengthMax.getD 2000
    if maxLength < (body.length : ℤ) then
      pySlice body (maxLength - 3) ++ ['.', '.', '.']
    else body

/-! ### The persistence loop of `suggest_content.main`

For each generated idea the loop calls `save_social_content_to_sanity`
(returning a document id or `None`, or raising) and, only when that returned
a truthy id, `add_idea_to_notion`; any exception is caught and the loop
continues with the next idea. -/

/-- An externally visible persistence action, tagged with the idea's index. -/
inductive PersistEvent where
  | cmsWrite (idx : ℕ)
  | notionWrite (idx : ℕ)
  deriving DecidableEq

/-- The body of the save-and-sync loop for idea `i`:
`cmsResult` is what `save_social_content_to_sanity` did
(`Except.error` = raised, `Except.ok v` = returned `v`). -/
def persistOne (i : ℕ) (cmsResult : Except Unit (Option String)) : List PersistEvent :=
  match cmsResult with
  | Except.error _ => [PersistEvent.cmsWrite i]
  | Except.ok v =>
    if pyTruthyStr v then [PersistEvent.cmsWrite i, PersistEvent.notionWrite i]
    else [PersistEvent.cmsWrite i]

/-- The whole save-and-sync loop over ideas `0 .. n-1` (sequential; a failure
for one idea never stops the loop). -/
def persistBatch (cms : ℕ → Except Unit (Option String)) : ℕ → List PersistEvent
  | 0 => []
  | n + 1 => persistBatch cms n ++ persistOne n (cms n)

/-! ## General helper lemmas -/

/-- `l[:n]` never yields more elements than `l` has. -/
theorem pySlice_length_le_self {α : Type} (l : List α) (n : ℤ) :
    (pySlice l n).length ≤ l.length := by
  unfold pySlice
  split <;> simp only [List.length_take] <;> omega

/-- For a nonnegative bound, `l[:n]` yields at most `n` elements. -/
theorem pySlice_length_le {α : Type} (l : List α) (n : ℤ) (h : 0 ≤ n) :
    ((pySlice l n).length : ℤ) ≤ n := by
  unfold pySlice
  rw [if_pos h]
  simp only [List.length_take]
  omega

/-- A string with a nonempty left append component is nonempty. -/
theorem append_ne_empty_left (s t : String) (h : 0 < s.length) : s ++ t ≠ "" := by
  intro he
  have hl := congrArg String.length he
  rw [String.length_append] at hl
  have h0 : ("" : String).length = 0 := rfl
  omega

/-- If every iteration of the planning loop succeeds, the loop returns
exactly one plan per requested idea. -/
theorem collectPlans_length (cs : ContentStrategyConfig) (sc : SeasonalConfig)
    (rand : ℕ → RandIdea) (n : ℕ)
    (h : ∀ i, (planOne cs sc (rand i)).isSome) :
    ∃ plans, collectPlans cs sc rand n = some plans ∧ plans.length = n := by
  induction n with
  | zero => exact ⟨[], rfl, rfl⟩
  | succ n ih =>
    obtain ⟨acc, hacc, hlen⟩ := ih
    obtain ⟨p, hp⟩ := Option.isSome_iff_exists.mp (h n)
    refine ⟨acc ++ [p], ?_, by simp [hlen]⟩
    rw [collectPlans, hacc, hp]

/-! ## Claim C7 -/

/-- Claim C7: when the catalog query inside `get_equipment_targets` raises,
the exception is not propagated: the result is an `EquipmentTarget` with an
empty ID list, the plan's `equipment_category`, and the default reason
list. -/
theorem equipment_targets_on_query_error (cs : ContentStrategyConfig) (plan : ContentPlan) :
    getEquipmentTargets cs plan (Except.error ()) =
      { category := plan.equipment_category
        specific_equipment_ids := []
        availability_filter := "availability.status == \"available\""
        priority_reasons := ["Default equipment selection"] } := rfl

/-! ## Claim C5 -/

/-- Claim C5: for every plan and every catalog query result, the ID list of
`get_equipment_targets` has length at most the configured
`maxEquipmentPerPost` (default `3` when the rule is absent; the configured
value is assumed nonnegative). -/
theorem equipment_targets_respect_max (cs : ContentStrategyConfig) (plan : ContentPlan)
    (q : Except Unit (List Equipment)) (hmax : 0 ≤ maxEquipmentOf cs) :
    ((getEquipmentTargets cs plan q).specific_equipment_ids.length : ℤ) ≤
      maxEquipmentOf cs := by
  cases q with
  | error e => simpa [getEquipmentTargets] using hmax
  | ok l =>
    simp only [getEquipmentTargets, List.length_map]
    exact pySlice_length_le _ _ hmax

/-- Concrete plan used by several witnesses. -/
def planC5w : ContentPlan :=
  { pillar := "equipment_spotlight", target_platform := "Facebook",
    equipment_category := "Concrete Equipment", seasonal_context := "Winter Context",
    priority_score := 62, business_rationale := "r" }

/-- Five available equipment records. -/
def eqsC5w : List Equipment :=
  [{ id := "e1", popularity_score := some 9 }, { id := "e2", popularity_score := some 7 },
   { id := "e3", popularity_score := none }, { id := "e4", popularity_score := some 3 },
   { id := "e5", popularity_score := some 5 }]

/-- Witness for C5: with the `maxEquipmentPerPost` rule absent (default 3)
and five matching equipment records, at most 3 IDs are returned. -/
theorem equipment_targets_respect_max_witness :
    ((getEquipmentTargets {} planC5w (Except.ok eqsC5w)).specific_equipment_ids.length : ℤ) ≤
      maxEquipmentOf {} :=
  equipment_targets_respect_max {} planC5w (Except.ok eqsC5w) (by decide)

/-! ## Claim C6 -/

/-- A `notionWrite` event can only come from its own idea's iteration, and
only when the CMS write returned a truthy document id. -/
theorem notionWrite_mem_persistOne {i j : ℕ} {c : Except Unit (Option String)}
    (h : PersistEvent.notionWrite i ∈ persistOne j c) :
    j = i ∧ ∃ s, c = Except.ok (some s) ∧ s ≠ "" := by
  cases c with
  | error e => simp [persistOne] at h
  | ok v =>
    by_cases ht : pyTruthyStr v = true
    · rw [persistOne, if_pos ht] at h
      simp only [List.mem_cons, List.mem_singleton] at h
      rcases h with h | h | h
      · exact absurd h (by simp)
      · cases v with
        | none => simp [pyTruthyStr] at ht
        | some s =>
          refine ⟨?_, s, rfl, ?_⟩
          · injection h with h'
            exact h'.symm
          · simpa [pyTruthyStr] using ht
      · simp at h
    · rw [persistOne, if_neg ht] at h
      simp at h

/-- Every event of the batch comes from some processed idea. -/
theorem mem_persistBatch {cms : ℕ → Except Unit (Option String)} {n : ℕ}
    {x : PersistEvent} (h : x ∈ persistBatch cms n) :
    ∃ j, j < n ∧ x ∈ persistOne j (cms j) := by
  induction n with
  | zero => simp [persistBatch] at h
  | succ n ih =>
    rw [persistBatch, List.mem_append] at h
    rcases h with h | h
    · obtain ⟨j, hj, hm⟩ := ih h
      exact ⟨j, Nat.lt_succ_of_lt hj, hm⟩
    · exact ⟨n, Nat.lt_succ_self n, h⟩

/-- The CMS write for idea `i` happens exactly once if `i` is in the batch,
never otherwise (no retry at this layer). -/
theorem count_cmsWrite_persistBatch (cms : ℕ → Except Unit (Option String)) (n i : ℕ) :
    (persistBatch cms n).count (PersistEvent.cmsWrite i) = if i < n then 1 else 0 := by
  induction n with
  | zero => simp [persistBatch]
  | succ n ih =>
    rw [persistBatch, List.count_append, ih]
    have hone : (persistOne n (cms n)).count (PersistEvent.cmsWrite i) =
        if n = i then 1 else 0 := by
      cases cms n with
      | error e => simp [persistOne, List.count_cons, List.count_nil]
      | ok v =>
        by_cases ht : pyTruthyStr v = true <;>
          simp [persistOne, ht, List.count_cons, List.count_nil]
    rw [hone]
    split_ifs <;> omega

/-- Claim C6: per idea, the Notion mirror happens only after a successful
Sanity write: if the CMS write for idea `i` raised or returned a falsy
document id, no Notion write occurs for `i`; the CMS write itself is
attempted at most once (no retry); and any Notion write that does occur is
for an idea whose CMS write returned a truthy document id. -/
theorem notion_mirror_requires_cms_success (cms : ℕ → Except Unit (Option String))
    (n i : ℕ)
    (hfail : cms i = Except.error () ∨ cms i = Except.ok none ∨
      cms i = Except.ok (some "")) :
    PersistEvent.notionWrite i ∉ persistBatch cms n ∧
    (persistBatch cms n).count (PersistEvent.cmsWrite i) ≤ 1 ∧
    (∀ j, PersistEvent.notionWrite j ∈ persistBatch cms n →
      ∃ s, cms j = Except.ok (some s) ∧ s ≠ "") := by
  refine ⟨?_, ?_, ?_⟩
  · intro hmem
    obtain ⟨j, _, hj⟩ := mem_persistBatch hmem
    obtain ⟨rfl, s, hs, hne⟩ := notionWrite_mem_persistOne hj
    rcases hfail with h | h | h <;> rw [h] at hs <;> simp_all
  · rw [count_cmsWrite_persistBatch]
    split <;> omega
  · intro j hmem
    obtain ⟨j', _, hj⟩ := mem_persistBatch hmem
    obtain ⟨rfl, s, hs, hne⟩ := notionWrite_mem_persistOne hj
    exact ⟨s, hs, hne⟩

/-- CMS outcomes for the C6 witness: idea 0's write raises, idea 1's returns
a falsy id, idea 2's succeeds. -/
def cmsC6w : ℕ → Except Unit (Option String) :=
  fun i => if i = 0 then Except.error () else
    if i = 1 then Except.ok none else Except.ok (some "doc-3")

/-- Witness for C6 on a three-idea batch whose first idea's CMS write raised. -/
theorem notion_mirror_requires_cms_success_witness :
    PersistEvent.notionWrite 0 ∉ persistBatch cmsC6w 3 ∧
    (persistBatch cmsC6w 3).count (PersistEvent.cmsWrite 0) ≤ 1 ∧
    (∀ j, PersistEvent.notionWrite j ∈ persistBatch cmsC6w 3 →
      ∃ s, cmsC6w j = Except.ok (some s) ∧ s ≠ "") :=
  notion_mirror_requires_cms_success cmsC6w 3 0 (Or.inl rfl)

/-! ## Claim C4 -/

/-- Every entry `enhance_equipment_images` can append has nonempty alt text
and caption. -/
theorem processItem_fields {o : ItemOutcome} {e : Equipment} {entry : ImageEntry}
    (h : processItem o e = some entry) :
    entry.alt_text ≠ "" ∧ entry.caption ≠ "" := by
  have hcap : entryCaption e "Equipment" ≠ "" := by
    apply append_ne_empty_left
    rw [String.length_append]
    have : (" - " : String).length = 3 := rfl
    omega
  cases o with
  | skip => simp [processItem] at h
  | enhanced d =>
    simp only [processItem, Option.some.injEq] at h
    subst h
    refine ⟨?_, hcap⟩
    apply append_ne_empty_left
    have : ("Enhanced image of " : String).length = 18 := rfl
    omega
  | fallback u =>
    simp only [processItem, Option.some.injEq] at h
    subst h
    refine ⟨?_, hcap⟩
    apply append_ne_empty_left
    have : ("Image of " : String).length = 9 := rfl
    omega

/-- Claim C4 (amended): for a nonnegative configured `maxImagesPerPost`
(default 3), `enhance_equipment_images` returns at most
`min(len(equipment), maxImagesPerPost)` entries, and — for any
configuration — every returned entry carries nonempty `alt_text` and
`caption`. -/
theorem enhance_images_bounds (ic : ImageGenerationConfig) (outcome : ℕ → ItemOutcome)
    (eqs : List Equipment) :
    (0 ≤ maxImagesOf ic →
      ((enhanceEquipmentImages ic outcome eqs).length : ℤ) ≤
        min (eqs.length : ℤ) (maxImagesOf ic)) ∧
    (∀ entry ∈ enhanceEquipmentImages ic outcome eqs,
      entry.alt_text ≠ "" ∧ entry.caption ≠ "") := by
  constructor
  · intro hM
    have h1 : (enhanceEquipmentImages ic outcome eqs).length ≤
        (pySlice eqs (maxImagesOf ic)).length := by
      unfold enhanceEquipmentImages
      calc ((pySlice eqs (maxImagesOf ic)).enum.filterMap _).length
          ≤ (pySlice eqs (maxImagesOf ic)).enum.length := List.length_filterMap_le _ _
        _ = (pySlice eqs (maxImagesOf ic)).length := List.enum_length
    have h2 := pySlice_length_le_self eqs (maxImagesOf ic)
    have h3 := pySlice_length_le eqs (maxImagesOf ic) hM
    omega
  · intro entry hmem
    unfold enhanceEquipmentImages at hmem
    obtain ⟨ie, _, hproc⟩ := List.mem_filterMap.mp hmem
    exact processItem_fields hproc

/-- Claim C4 counterexample: with `maxImagesPerPost = -1` (a configuration
the claim quantifies over) and two equipment records, Python's negative
slice keeps one item, so one entry is returned — but
`min(len(equipment), maxImagesPerPost) = -1`, so the claimed bound fails. -/
theorem enhance_images_negative_max_cex :
    (enhanceEquipmentImages { maxImagesPerPost := some (-1) }
      (fun _ => ItemOutcome.enhanced "desc")
      [{ id := "a" }, { id := "b" }]).length = 1 ∧
    ¬ (((enhanceEquipmentImages { maxImagesPerPost := some (-1) }
      (fun _ => ItemOutcome.enhanced "desc")
      [{ id := "a" }, { id := "b" }]).length : ℤ) ≤
        min ((2 : ℤ)) (maxImagesOf { maxImagesPerPost := some (-1) })) := by
  constructor
  · rfl
  · decide

/-- Witness for C4 with the default configuration (`maxImagesPerPost`
absent, so 3), three equipment records, and a mixed outcome (one Gemini
success, one skip, one fallback). -/
theorem enhance_images_bounds_witness :
    (((enhanceEquipmentImages {} (fun i => if i = 0 then ItemOutcome.enhanced "d"
        else if i = 1 then ItemOutcome.skip else ItemOutcome.fallback (some "u"))
        [{ id := "a" }, { id := "b" }, { id := "c", name := some "Saw" }]).length : ℤ) ≤
      min ((3 : ℤ)) (maxImagesOf {})) ∧
    (∀ entry ∈ enhanceEquipmentImages {} (fun i => if i = 0 then ItemOutcome.enhanced "d"
        else if i = 1 then ItemOutcome.skip else ItemOutcome.fallback (some "u"))
        [{ id := "a" }, { id := "b" }, { id := "c", name := some "Saw" }],
      entry.alt_text ≠ "" ∧ entry.caption ≠ "") := by
  have h := enhance_images_bounds {}
    (fun i => if i = 0 then ItemOutcome.enhanced "d"
      else if i = 1 then ItemOutcome.skip else ItemOutcome.fallback (some "u"))
    [{ id := "a" }, { id := "b" }, { id := "c", name := some "Saw" }]
  exact ⟨by simpa using h.1 (by decide), h.2⟩

/-! ## Claim C2 -/

/-- In every run of the retry loop, at most 3 generation calls are made and
the sleep-delay trace is an initial segment of `[2, 4]` (so the delays are
strictly increasing, each double the previous). -/
theorem generateContentText_shape (oracle : ℕ → GenResult) (plan : ContentPlan) :
    (generateContentText oracle plan).calls ≤ 3 ∧
    (generateContentText oracle plan).sleeps =
      [2, 4].take (generateContentText oracle plan).sleeps.length := by
  unfold generateContentText
  rcases h0 : oracle 0 with c0 | _ | m0 <;>
    rcases h1 : oracle 1 with c1 | _ | m1 <;>
      rcases h2 : oracle 2 with c2 | _ | m2 <;>
        simp only [genAttempts, h0, h1, h2] <;>
          (try split_ifs) <;> simp_all

/-- Claim C2 (amended): a text-generation call raising a 503/"overloaded"
error is retried with strictly increasing delay (2s, then 4s — the base
delay doubling), but the loop makes at most 3 attempts in total, i.e. at
most 2 retries (not 3); an error without the overload signature aborts
immediately after the single call, with no sleep, returning `None`;
exhausting the attempts on persistent overload also returns `None` after
exactly 3 calls and sleeps `[2, 4]`. -/
theorem generate_content_text_retry_policy (oracle : ℕ → GenResult) (plan : ContentPlan) :
    (generateContentText oracle plan).calls ≤ 3 ∧
    (generateContentText oracle plan).sleeps =
      [2, 4].take (generateContentText oracle plan).sleeps.length ∧
    (∀ msg, oracle 0 = GenResult.err msg → isOverloadError msg = false →
      generateContentText oracle plan = { result := none, calls := 1, sleeps := [] }) ∧
    ((∀ i, i < 3 → ∃ msg, oracle i = GenResult.err msg ∧ isOverloadError msg = true) →
      generateContentText oracle plan = { result := none, calls := 3, sleeps := [2, 4] }) := by
  refine ⟨(generateContentText_shape oracle plan).1,
    (generateContentText_shape oracle plan).2, ?_, ?_⟩
  · intro msg h0 hov
    simp [generateContentText, genAttempts, h0, hov]
  · intro hall
    obtain ⟨m0, h0, hov0⟩ := hall 0 (by omega)
    obtain ⟨m1, h1, hov1⟩ := hall 1 (by omega)
    obtain ⟨m2, h2, hov2⟩ := hall 2 (by omega)
    simp [generateContentText, genAttempts, h0, h1, h2, hov0, hov1, hov2]

/-- Concrete plan for the C2 witness and counterexample. -/
def planC2 : ContentPlan :=
  { pillar := "equipment_spotlight", target_platform := "Facebook",
    equipment_category := "Concrete Equipment", seasonal_context := "Winter Context",
    priority_score := 62, business_rationale := "r" }

/-- Claim C2 counterexample: under persistent 503 overload the loop performs
exactly 3 generation calls, i.e. the call is retried only 2 times — not "up
to exactly 3 times" as claimed (that would take 4 calls). -/
theorem generate_text_two_retries_cex :
    generateContentText (fun _ => GenResult.err "503 Service Unavailable") planC2 =
      { result := none, calls := 3, sleeps := [2, 4] } ∧
    (generateContentText (fun _ => GenResult.err "503 Service Unavailable") planC2).calls
      - 1 = 2 ∧ (2 : ℕ) ≠ 3 := by
  refine ⟨by decide, by decide, by decide⟩

/-- Witness for C2: the persistent-overload outcome (case-insensitive
"overloaded" signature) and the immediate-abort outcome for a
non-retryable error. -/
theorem generate_content_text_retry_policy_witness :
    generateContentText (fun _ => GenResult.err "the model is oVerLoaded") planC2 =
      { result := none, calls := 3, sleeps := [2, 4] } ∧
    generateContentText (fun _ => GenResult.err "invalid JSON payload") planC2 =
      { result := none, calls := 1, sleeps := [] } :=
  ⟨(generate_content_text_retry_policy
        (fun _ => GenResult.err "the model is oVerLoaded") planC2).2.2.2
      (fun i _ => ⟨"the model is oVerLoaded", rfl, by decide⟩),
   (generate_content_text_retry_policy
        (fun _ => GenResult.err "invalid JSON payload") planC2).2.2.1
      "invalid JSON payload" rfl (by decide)⟩

/-! ## Claim C9 -/

/-- Claim C9: with a truthy platform settings dict whose configured maximum
body length `M` is at least 3, `_optimize_for_platform` replaces a body
longer than `M` with its first `M-3` characters plus a 3-character ellipsis
(total length exactly `M`), and leaves a body of length at most `M`
unchanged. -/
theorem optimize_body_truncation (pc : PlatformConfig) (platform : String)
    (e : PlatformEntryData) (body : List Char)
    (hent : getPlatformEntry pc platform = some e)
    (hM : 3 ≤ e.contentLengthMax.getD 2000) :
    ((e.contentLengthMax.getD 2000) < (body.length : ℤ) →
      optimizeBodyForPlatform pc platform body =
        body.take (e.contentLengthMax.getD 2000 - 3).toNat ++ ['.', '.', '.'] ∧
      ((optimizeBodyForPlatform pc platform body).length : ℤ) =
        e.contentLengthMax.getD 2000) ∧
    ((body.length : ℤ) ≤ e.contentLengthMax.getD 2000 →
      optimizeBodyForPlatform pc platform body = body) := by
  simp only [optimizeBodyForPlatform, hent]
  constructor
  · intro hlt
    rw [if_pos hlt]
    have hsl : pySlice body (e.contentLengthMax.getD 2000 - 3) =
        body.take (e.contentLengthMax.getD 2000 - 3).toNat := by
      unfold pySlice
      rw [if_pos (by omega)]
    constructor
    · rw [hsl]
    · rw [hsl, List.length_append, List.length_take]
      simp only [List.length_cons, List.length_nil]
      omega
  · intro hle
    rw [if_neg (by omega)]

/-- Platform configuration for the C9 witness: Facebook max body length 50. -/
def pcC9 : PlatformConfig :=
  { facebook := some { contentLengthMax := some 50 } }

/-- Witness for C9: an 80-character body on a platform with max length 50 is
replaced by its first 47 characters plus `"..."`, 50 characters in total. -/
theorem optimize_body_truncation_witness :
    optimizeBodyForPlatform pcC9 "Facebook" (List.replicate 80 'a') =
      (List.replicate 80 'a').take 47 ++ ['.', '.', '.'] ∧
    ((optimizeBodyForPlatform pcC9 "Facebook" (List.replicate 80 'a')).length : ℤ) = 50 := by
  have h := (optimize_body_truncation pcC9 "Facebook"
    { contentLengthMax := some 50 } (List.replicate 80 'a') (by decide) (by decide)).1
    (by simp)
  simpa using h

/-! ## Claim C10 -/

/-- Overwriting key `k` in place leaves every other key's binding intact. -/
theorem dictGet_map_overwrite_ne (d : ImgDict) (k k' : String) (v : JVal)
    (hne : k' ≠ k) :
    dictGet (d.map (fun kv => if kv.1 = k then (k, v) else kv)) k' = dictGet d k' := by
  induction d with
  | nil => rfl
  | cons p t ih =>
    by_cases hk : p.1 = k
    · simp only [List.map_cons, if_pos hk, dictGet]
      rw [if_neg (fun h => hne h.symm), if_neg (by rw [hk]; exact fun h => hne h.symm), ih]
    · simp only [List.map_cons, if_neg hk, dictGet, ih]

/-- Overwriting an existing key `k` makes `k` map to the new value. -/
theorem dictGet_map_overwrite_self (d : ImgDict) (k : String) (v : JVal)
    (h : (dictGet d k).isSome) :
    dictGet (d.map (fun kv => if kv.1 = k then (k, v) else kv)) k = some v := by
  induction d with
  | nil => simp [dictGet] at h
  | cons p t ih =>
    by_cases hk : p.1 = k
    · simp [List.map_cons, if_pos hk, dictGet]
    · rw [dictGet, if_neg hk] at h
      simp only [List.map_cons, if_neg hk, dictGet, if_neg hk]
      exact ih h

/-- Appending a fresh binding of `k` leaves every other key's binding intact. -/
theorem dictGet_append_single_ne (d : ImgDict) (k k' : String) (v : JVal)
    (hne : k' ≠ k) :
    dictGet (d ++ [(k, v)]) k' = dictGet d k' := by
  induction d with
  | nil =>
    show dictGet [(k, v)] k' = none
    rw [dictGet, if_neg (fun h => hne h.symm)]
    rfl
  | cons p t ih =>
    by_cases hk : p.1 = k' <;> simp [dictGet, hk, ih]

/-- Appending a fresh binding of `k` makes `k` map to the new value. -/
theorem dictGet_append_single_self (d : ImgDict) (k : String) (v : JVal)
    (h : dictGet d k = none) :
    dictGet (d ++ [(k, v)]) k = some v := by
  induction d with
  | nil => simp [dictGet]
  | cons p t ih =>
    by_cases hk : p.1 = k
    · rw [dictGet, if_pos hk] at h
      exact absurd h (by simp)
    · rw [dictGet, if_neg hk] at h
      simp only [List.cons_append, dictGet, if_neg hk]
      exact ih h

/-- `d[k] = v` then reading `k` gives `v`. -/
theorem dictGet_dictSet_self (d : ImgDict) (k : String) (v : JVal) :
    dictGet (dictSet d k v) k = some v := by
  unfold dictSet
  by_cases h : (dictGet d k).isSome
  · rw [if_pos h]
    exact dictGet_map_overwrite_self d k v h
  · rw [if_neg h]
    exact dictGet_append_single_self d k v (Option.not_isSome_iff_eq_none.mp h)

/-- `d[k] = v` then reading any other key is unchanged. -/
theorem dictGet_dictSet_ne (d : ImgDict) (k k' : String) (v : JVal) (hne : k' ≠ k) :
    dictGet (dictSet d k v) k' = dictGet d k' := by
  unfold dictSet
  split
  · exact dictGet_map_overwrite_ne d k k' v hne
  · exact dictGet_append_single_ne d k k' v hne

/-- Claim C10: `optimize_for_platform` with no (or empty) image specs for
the platform returns the input list unchanged; with specs present it maps
each entry to a copy extended with exactly the `platform_optimized` and
`target_dimensions` fields, every other key keeping its original binding. -/
theorem optimize_images_frame (pc : PlatformConfig) (platform : String)
    (images : List ImgDict) :
    (getPlatformImageSpecs pc platform = none →
      optimizeImagesForPlatform pc images platform = images) ∧
    (∀ specs, getPlatformImageSpecs pc platform = some specs →
      optimizeImagesForPlatform pc images platform =
        images.map (tagForPlatform platform specs) ∧
      (∀ img ∈ images,
        (∀ k, k ≠ "platform_optimized" → k ≠ "target_dimensions" →
          dictGet (tagForPlatform platform specs img) k = dictGet img k) ∧
        dictGet (tagForPlatform platform specs img) "platform_optimized" =
          some (JVal.str platform) ∧
        dictGet (tagForPlatform platform specs img) "target_dimensions" =
          some (JVal.dims (specs.1.getD 1080) (specs.2.getD 1080)))) := by
  constructor
  · intro h
    simp [optimizeImagesForPlatform, h]
  · intro specs h
    refine ⟨by simp [optimizeImagesForPlatform, h], ?_⟩
    intro img _
    refine ⟨?_, ?_, ?_⟩
    · intro k hk1 hk2
      unfold tagForPlatform
      rw [dictGet_dictSet_ne _ _ _ _ hk2, dictGet_dictSet_ne _ _ _ _ hk1]
    · unfold tagForPlatform
      rw [dictGet_dictSet_ne _ _ _ _ (by decide)]
      exact dictGet_dictSet_self _ _ _
    · exact dictGet_dictSet_self _ _ _

/-- Platform configuration for the C10 witness: Facebook specs 1200×630,
no Instagram/Blog settings. -/
def pcC10 : PlatformConfig :=
  { facebook := some { imageSpecs := some (some 1200, some 630) } }

/-- A sample original-image entry. -/
def imgC10 : ImgDict := [("type", JVal.str "original"), ("url", JVal.str "http&u")]

/-- Witness for C10: an unknown platform leaves the list untouched; Facebook
tags each entry with `platform_optimized` and `target_dimensions` while the
original `url` binding survives. -/
theorem optimize_images_frame_witness :
    optimizeImagesForPlatform pcC10 [imgC10] "TikTok" = [imgC10] ∧
    optimizeImagesForPlatform pcC10 [imgC10] "Facebook" =
      [imgC10 ++ [("platform_optimized", JVal.str "Facebook"),
        ("target_dimensions", JVal.dims 1200 630)]] ∧
    dictGet (tagForPlatform "Facebook" (some 1200, some 630) imgC10) "url" =
      some (JVal.str "http&u") := by
  have h2 := (optimize_images_frame pcC10 "Facebook" [imgC10]).2
    (some 1200, some 630) (by decide)
  refine ⟨(optimize_images_frame pcC10 "TikTok" [imgC10]).1 (by decide), ?_, ?_⟩
  · rw [h2.1]
    decide
  · exact (h2.2 imgC10 (by decide)).1 "url" (by decide) (by decide)

/-! ## Claim C3 -/

/-- Claim C3 (amended): for every configuration whose pillar weights and
current-season boost are nonnegative — and any equipment-availability
count — `_calculate_priority_score` stays within `[0, 100]`, including for
zero-weight pillars. -/
theorem priority_score_in_range (cs : ContentStrategyConfig) (sc : SeasonalConfig)
    (pillar category context : String) (count : ℕ)
    (hw : ∀ w ∈ cs.pillar_weights, 0 ≤ w.2)
    (hb : 0 ≤ currentSeasonBoost sc) :
    0 ≤ calculatePriorityScore cs sc pillar category context count ∧
    calculatePriorityScore cs sc pillar category context count ≤ 100 := by
  have hw' : 0 ≤ dictGetD cs.pillar_weights pillar (1 / 10) := by
    unfold dictGetD
    rcases h : cs.pillar_weights.lookup pillar with _ | v
    · norm_num
    · have hv := lookup_mem_snd h
      obtain ⟨p, hp, hpv⟩ := List.mem_map.mp hv
      simp only [Option.getD_some]
      rw [← hpv]
      exact hw p hp
  have h0 : (0 : ℚ) ≤ 50 + dictGetD cs.pillar_weights pillar (1 / 10) * 40 := by nlinarith
  have hminq : (0 : ℚ) ≤ min ((count : ℚ) * 2) 10 :=
    le_min (by positivity) (by norm_num)
  constructor
  · simp only [calculatePriorityScore]
    refine le_min ?_ (by norm_num)
    split_ifs <;> nlinarith [mul_nonneg h0 hb]
  · simp only [calculatePriorityScore]
    exact min_le_right _ _

/-- Witness for C3: a nonnegative-weight configuration with seasonal boost,
availability bonus and new-equipment bonus; the raw score 193 is capped into
range. -/
theorem priority_score_in_range_witness :
    0 ≤ calculatePriorityScore
      { pillar_weights := [("equipment_spotlight", 1)], prioritizeNewEquipment := true }
      { seasonal_boosts := [("currentSeasonBoost", 2)] }
      "equipment_spotlight" "Concrete Equipment" "Winter Solutions" 4 ∧
    calculatePriorityScore
      { pillar_weights := [("equipment_spotlight", 1)], prioritizeNewEquipment := true }
      { seasonal_boosts := [("currentSeasonBoost", 2)] }
      "equipment_spotlight" "Concrete Equipment" "Winter Solutions" 4 ≤ 100 :=
  priority_score_in_range _ _ _ _ _ _ (by decide) (by decide)

/-- Claim C3 counterexample: with a configured pillar weight of `-2` (the
claim quantifies over any `pillar_weights`) the score is
`min(50 + (-2)·40, 100) = -30`, outside `[0, 100]`. -/
theorem priority_score_negative_cex :
    calculatePriorityScore { pillar_weights := [("p", -2)] } {} "p" "c" "x" 0 = -30 ∧
    ¬ (0 ≤ (-30 : ℚ)) := by
  constructor
  · norm_num [calculatePriorityScore, currentSeasonBoost, dictGetD, List.lookup,
      pyContains, pyLower, hasSubList, startsWithList]
  · norm_num

/-! ## Claim C1 -/

/-- When pillar selection succeeds, the pillar list fed to the weighted draw
is the configured pillar-weight keys, and the configuration is nonempty. -/
theorem dist_shape {cs : ContentStrategyConfig} {sc : SeasonalConfig}
    {ps : List String} {qs : List ℚ}
    (hd : selectStrategicPillarDist cs sc = some (ps, qs)) :
    ps = cs.pillar_weights.map Prod.fst ∧ cs.pillar_weights ≠ [] := by
  simp only [selectStrategicPillarDist] at hd
  split at hd
  · exact absurd hd (by simp)
  · rename_i probs1 heq
    split at hd
    · exact absurd hd (by simp)
    · simp only [Option.some.injEq, Prod.mk.injEq] at hd
      refine ⟨hd.1.symm, ?_⟩
      intro hwnil
      rw [hwnil] at heq
      simp at heq

/-- When pillar selection succeeds, the whole per-idea planning step
succeeds (the remaining draws are all over provably nonempty lists). -/
theorem planOne_isSome (cs : ContentStrategyConfig) (sc : SeasonalConfig) (rd : RandIdea)
    (h : (selectStrategicPillarDist cs sc).isSome) :
    (planOne cs sc rd).isSome := by
  obtain ⟨⟨ps, qs⟩, hd⟩ := Option.isSome_iff_exists.mp h
  obtain ⟨hps, hwne⟩ := dist_shape hd
  have hpsne : ps ≠ [] := by
    rw [hps]
    intro hnil
    exact hwne (List.map_eq_nil_iff.mp hnil)
  have hlt : rd.pillarR % ps.length < ps.length :=
    Nat.mod_lt _ (List.length_pos.mpr hpsne)
  unfold planOne selectStrategicPillar
  rw [hd]
  simp [List.getElem?_eq_getElem hlt]

/-- Claim C1 (amended): for every requested count `N`, whenever the loaded
configuration makes pillar selection well-defined (nonempty pillar weights
and a nonzero post-boost probability total — i.e. `plan_strategic_content`
raises no `ZeroDivisionError`), exactly `N` plans are returned,
sorted non-increasingly by `priority_score`. -/
theorem plan_strategic_content_count_sorted (cs : ContentStrategyConfig)
    (sc : SeasonalConfig) (rand : ℕ → RandIdea) (n : ℕ)
    (h : (selectStrategicPillarDist cs sc).isSome) :
    ∃ plans, planStrategicContent cs sc rand n = some plans ∧
      plans.length = n ∧ plans.Sorted planGE := by
  obtain ⟨raw, hraw, hlen⟩ :=
    collectPlans_length cs sc rand n (fun i => planOne_isSome cs sc (rand i) h)
  refine ⟨List.insertionSort planGE raw, ?_, ?_,
    List.sorted_insertionSort planGE raw⟩
  · simp [planStrategicContent, hraw]
  · rw [(List.perm_insertionSort planGE raw).length_eq, hlen]

/-- Configuration for the C1 witness: two equally weighted pillars. -/
def csC1 : ContentStrategyConfig :=
  { pillar_weights := [("equipment_spotlight", 1), ("safety_training", 1)] }

/-- Witness for C1: with the two-pillar configuration and `N = 2`, exactly
2 plans come back, sorted by descending priority score. -/
theorem plan_strategic_content_count_sorted_witness :
    ∃ plans, planStrategicContent csC1 {} (fun i => { pillarR := i }) 2 = some plans ∧
      plans.length = 2 ∧ plans.Sorted planGE :=
  plan_strategic_content_count_sorted csC1 {} (fun i => { pillarR := i }) 2 (by
    norm_num [selectStrategicPillarDist, currentSeasonBoost, dictGetD, List.lookup, csC1])

/-- Claim C1 counterexample: a successfully loaded configuration whose
strategy document lacks `pillarWeights` (so the dict is `{}`) makes
`plan_strategic_content(1)` raise `ZeroDivisionError` (`1.0 / len(pillars)`
with zero pillars) instead of returning 1 plan. -/
theorem plan_strategic_content_empty_weights_cex :
    planStrategicContent { pillar_weights := [] } {} (fun _ => {}) 1 = none ∧
    ¬ ∃ plans, planStrategicContent { pillar_weights := [] } {} (fun _ => {}) 1 =
      some plans ∧ plans.length = 1 := by
  refine ⟨rfl, ?_⟩
  rintro ⟨plans, hp, _⟩
  rw [show planStrategicContent { pillar_weights := [] } {} (fun _ => {}) 1 = none
    from rfl] at hp
  exact Option.noConfusion hp

/-! ## Claim C8 -/

/-- Claim C8 (amended): with all configured pillar weights zero — and a
nonempty weights dict — the fallback makes the distribution uniform; the
final distribution fed to the draw is uniform, and no `ZeroDivisionError`
occurs, provided the current-season boost is 1 (its default) or
`seasonal_content` is not among the configured pillars (otherwise the boost
skews the fallback distribution, see the counterexample). -/
theorem all_zero_weights_uniform (cs : ContentStrategyConfig) (sc : SeasonalConfig)
    (hzero : ∀ w ∈ cs.pillar_weights, w.2 = 0)
    (hne : cs.pillar_weights ≠ [])
    (hboost : currentSeasonBoost sc = 1 ∨
      "seasonal_content" ∉ cs.pillar_weights.map Prod.fst) :
    selectStrategicPillarDist cs sc =
      some (cs.pillar_weights.map Prod.fst,
        List.replicate cs.pillar_weights.length
          ((1 : ℚ) / cs.pillar_weights.length)) := by
  have hsum : (cs.pillar_weights.map Prod.snd).sum = 0 := by
    apply List.sum_eq_zero
    intro x hx
    obtain ⟨p, hp, rfl⟩ := List.mem_map.mp hx
    exact hzero p hp
  have hlen : cs.pillar_weights.length ≠ 0 := by
    simpa [List.length_eq_zero] using hne
  have hlenq : ((cs.pillar_weights.length : ℚ)) ≠ 0 := Nat.cast_ne_zero.mpr hlen
  have hprobs2 : ((cs.pillar_weights.map Prod.fst).zip
      (List.replicate cs.pillar_weights.length
        ((cs.pillar_weights.length : ℚ))⁻¹)).map
      (fun pq => if pq.1 = "seasonal_content" then pq.2 * currentSeasonBoost sc else pq.2) =
      List.replicate cs.pillar_weights.length ((cs.pillar_weights.length : ℚ))⁻¹ := by
    have hcongr : ∀ pq ∈ (cs.pillar_weights.map Prod.fst).zip
        (List.replicate cs.pillar_weights.length
          ((cs.pillar_weights.length : ℚ))⁻¹),
        (if pq.1 = "seasonal_content" then pq.2 * currentSeasonBoost sc else pq.2) =
          Prod.snd pq := by
      intro pq hpq
      rcases hboost with hb1 | hb2
      · split_ifs with hsc
        · rw [hb1, mul_one]
        · rfl
      · rw [if_neg]
        intro hsc
        apply hb2
        rw [← hsc]
        exact (List.of_mem_zip hpq).1
    rw [List.map_congr_left hcongr, List.map_snd_zip _ _ (by simp)]
  have hsum2 : (List.replicate cs.pillar_weights.length
      ((cs.pillar_weights.length : ℚ))⁻¹).sum = 1 := by
    rw [List.sum_replicate, nsmul_eq_mul, mul_inv_cancel₀ hlenq]
  simp only [selectStrategicPillarDist, hsum, lt_self_iff_false, if_false,
    List.length_map, hlen, one_div]
  rw [hprobs2, hsum2, if_neg one_ne_zero, List.map_replicate]
  norm_num

/-- Configuration for the C8 witness: two zero-weight pillars, no configured
boost (so the default boost 1 applies). -/
def csC8 : ContentStrategyConfig :=
  { pillar_weights := [("equipment_spotlight", 0), ("safety_training", 0)] }

/-- Witness for C8: the all-zero two-pillar configuration yields the uniform
distribution `[1/2, 1/2]` with no division-by-zero. -/
theorem all_zero_weights_uniform_witness :
    selectStrategicPillarDist csC8 {} =
      some (["equipment_spotlight", "safety_training"],
        List.replicate 2 ((1 : ℚ) / 2)) := by
  have h := all_zero_weights_uniform csC8 {} (by decide) (by decide) (Or.inl (by decide))
  simpa [csC8] using h

/-- Claim C8 counterexample: all-zero weights with `seasonal_content`
configured and a season boost of 2 produce the distribution `[2/3, 1/3]`,
not the claimed uniform `[1/2, 1/2]` (the boost is applied after the uniform
fallback and the result renormalised). -/
theorem all_zero_weights_not_uniform_cex :
    (∀ w ∈ ({ pillar_weights := [("seasonal_content", 0), ("equipment_spotlight", 0)] }
      : ContentStrategyConfig).pillar_weights, w.2 = 0) ∧
    selectStrategicPillarDist
      { pillar_weights := [("seasonal_content", 0), ("equipment_spotlight", 0)] }
      { seasonal_boosts := [("currentSeasonBoost", 2)] } =
      some (["seasonal_content", "equipment_spotlight"], [2/3, 1/3]) ∧
    ([(2 : ℚ)/3, 1/3] ≠ List.replicate 2 ((1 : ℚ) / 2)) := by
  refine ⟨by decide, ?_, ?_⟩
  · norm_num [selectStrategicPillarDist, currentSeasonBoost, dictGetD, List.lookup,
      List.replicate]
    simp only [String.reduceEq, if_false, if_true]
    norm_num
  · intro h
    rw [List.replicate] at h
    simp only [List.replicate, List.cons.injEq] at h
    have := h.1
    norm_num at this

end RentalVillage
